import Mathlib

/-!
Verification development for the FiT Discord bot.

Python strings are modelled as `List Char`; stateful collaborators (the
external language-model service, JSON decoding from the standard library,
the random source) are injected as explicit parameters, so every embedded
function is a pure, executable Lean definition mirroring the source
control flow.  ASCII case mapping and the ASCII whitespace set are used
for `str.upper` / `str.strip`; every string the code compares against is
ASCII, so this is faithful on all inputs the comparisons distinguish.
-/

namespace FiT

/-! ## Python string primitives -/

/-- The whitespace characters removed by Python `str.strip()` (ASCII set). -/
def isPySpace (c : Char) : Bool :=
  c == ' ' || c == '\t' || c == '\n' || c == '\r' || c == '\x0b' || c == '\x0c'

/-- Python `s.strip()`: drop whitespace from both ends. -/
def pyStrip (s : List Char) : List Char :=
  ((s.dropWhile isPySpace).reverse.dropWhile isPySpace).reverse

/-- Python `s.upper()` (ASCII case mapping). -/
def pyUpper (s : List Char) : List Char :=
  s.map Char.toUpper

/-- Index of the first occurrence of `needle` in `hay`, if any
(Python `str.find`, with `none` standing for `-1`). -/
def first_occurrence (needle : List Char) : List Char → Option Nat
  | [] => if needle.isPrefixOf ([] : List Char) then some 0 else none
  | c :: t =>
    if needle.isPrefixOf (c :: t) then some 0
    else (first_occurrence needle t).map (fun n => n + 1)

/-- Python `hay.find(needle, start)`, as an `Option Nat`. -/
def py_find (hay needle : List Char) (start : Nat) : Option Nat :=
  (first_occurrence needle (hay.drop start)).map (fun n => n + start)

/-- Python slice `s[a:e]` where `e = none` encodes the literal end index `-1`
(which Python resolves to `len(s) - 1`). -/
def py_slice (s : List Char) (a : Nat) (e : Option Nat) : List Char :=
  match e with
  | some b => (s.take b).drop a
  | none => (s.take (s.length - 1)).drop a

/-! ## Prayer extraction pipeline (`src/prayer_extraction.py`)

The external call `xai_client.chat.completions.create` together with the
response-field access is modelled by an oracle `Nat → AttemptResult`: the
value at index `n` is the outcome of the `(n+1)`-th API invocation, either
an exception (`failure`) or the raw response text (`success`).
-/

/-- Outcome of one call to the external generation service: an exception
anywhere in the `try` block, or the raw response content. -/
inductive AttemptResult
  | failure
  | success (response : List Char)
deriving DecidableEq

/-- The literal sentinel `NO_PRAYER` from the prompt contract. -/
def sentinel : List Char := "NO_PRAYER".data

/-- Whether an attempt outcome is the exception case. -/
def is_api_failure : AttemptResult → Bool
  | AttemptResult.failure => true
  | AttemptResult.success _ => false

/-- The `try`/`except` body of `extract_prayer`, lines 50-98: one API call;
on success strip the response and classify it against the sentinel; on an
exception retry while `retry_count < 1` (equivalently, while `retries_left`
is positive; `retry_count = 1 - retries_left`), else give up with `None`.
Returns the result together with the number of API invocations made. -/
def extract_loop (oracle : Nat → AttemptResult) (attempt : Nat) (retries_left : Nat) :
    Option (List Char) × Nat :=
  match retries_left, oracle attempt with
  | _, AttemptResult.success t =>
    let response := pyStrip t
    (if pyUpper response = sentinel ∨ response = [] then none else some response, 1)
  | 0, AttemptResult.failure => (none, 1)
  | r + 1, AttemptResult.failure =>
    let p := extract_loop oracle (attempt + 1) r
    (p.1, p.2 + 1)

/-- `extract_prayer(message_text)` (lines 31-98): `None` immediately when the
client is uninitialized (line 42) or the text is empty/whitespace-only
(line 46); otherwise run the call-and-classify loop with at most one retry.
The second component counts external API invocations. -/
def extract_prayer (client_initialized : Bool) (message_text : List Char)
    (oracle : Nat → AttemptResult) : Option (List Char) × Nat :=
  if client_initialized = false then (none, 0)
  else if message_text = [] ∨ pyStrip message_text = [] then (none, 0)
  else extract_loop oracle 0 1

/-- `handle_prayer_message` (`src/main.py` lines 96-122): extract, and if the
result is `None` return without persisting; otherwise call the external
`save_prayer` with the extracted text.  The returned `Option` is the
`extracted_prayer` field of the persisted record (`none` = nothing saved). -/
def handle_prayer_message (client_initialized : Bool) (content : List Char)
    (oracle : Nat → AttemptResult) : Option (List Char) :=
  (extract_prayer client_initialized content oracle).1

/-! ## Engagement message pipeline (`src/engagement/message_generator.py`)

The API call (Claude or xAI branch) is an oracle `Nat → ApiResult`; the
standard-library `json.loads` is an injected total function
`List Char → Option PyDict` (`none` = `JSONDecodeError`) over the
code-fence-unwrapped content, which is embedded faithfully below.  The
random theme and fallback choices are injected indices.
-/

/-- Outcome of one external generation call: an exception, or raw content. -/
inductive ApiResult
  | error
  | content (text : List Char)
deriving DecidableEq

/-- A decoded JSON object restricted to string fields, with Python
`dict.get(key, default)` lookup. -/
abbrev PyDict := List (List Char × List Char)

/-- Python `parsed.get(key, default)`. -/
def dict_get (d : PyDict) (key default : List Char) : List Char :=
  (d.lookup key).getD default

def json_fence : List Char := "```json".data

def plain_fence : List Char := "```".data

/-- The markdown code-fence unwrapping of lines 128-138: if the content
contains a fenced block, slice out its body and strip it; a missing closing
fence makes `find` return `-1`, which the Python slice treats as `len-1`. -/
def fence_unwrap (content : List Char) : List Char :=
  match py_find content json_fence 0 with
  | some i =>
    pyStrip (py_slice content (i + 7) (py_find content plain_fence (i + 7)))
  | none =>
    match py_find content plain_fence 0 with
    | some i =>
      pyStrip (py_slice content (i + 3) (py_find content plain_fence (i + 3)))
    | none => content

/-- The two-field payload returned by `generate_engagement_message`. -/
structure EngagementMessage where
  mentor_reminder : List Char
  mentee_template : List Char
deriving DecidableEq

def mentor_reminder_key : List Char := "mentor_reminder".data

def mentee_template_key : List Char := "mentee_template".data

/-- The theme catalog (lines 39-48); the chosen theme only shapes the prompt
sent to the external service. -/
def themes : List (List Char) :=
  ["meme/internet culture".data, "sports/competition".data, "music/arts".data,
   "gaming/tech".data, "real talk/deep thoughts".data, "goals/ambitions".data,
   "funny/lighthearted".data, "challenges/support".data]

/-- The fixed pre-authored fallback pool of `_get_fallback_message`
(lines 159-224), transcribed verbatim. -/
def fallbacks : List EngagementMessage :=
  [⟨"<@&MENTOR_ROLE_ID> 🎮 Time for a vibe check with your groups! Here\x27s a fun prompt if you need inspiration.".data,
    "POV: You can only keep 3 apps on your phone for a month. Which ones and why? Wrong answers only accepted too 😂".data⟩,
   ⟨"<@&MENTOR_ROLE_ID> 📸 Quick nudge to engage your squads! Try this creative prompt or make your own.".data,
    "Hot take thread! Drop your most controversial (but harmless) opinion. I\x27ll start: Pineapple on pizza is actually elite. Fight me 🍕".data⟩,
   ⟨"<@&MENTOR_ROLE_ID> 🎯 Channel check-in time! Here\x27s a discussion starter or freestyle it.".data,
    "If your current mood was a song, what would it be? Bonus points if you share the actual track 🎵".data⟩,
   ⟨"<@&MENTOR_ROLE_ID> 💭 Touch base with your crews when you can! Fun conversation idea attached.".data,
    "Would you rather: Have to sing everything you say for a day OR only communicate through interpretive dance? Explain your survival strategy 🕺".data⟩,
   ⟨"<@&MENTOR_ROLE_ID> ⚡ Weekly group engagement reminder! Spice things up with this prompt.".data,
    "Rate your week using only emojis (max 5). Then guess what happened based on someone else\x27s emoji story 👀".data⟩,
   ⟨"<@&MENTOR_ROLE_ID> 🌟 Check in with your mentees! Here\x27s a creative starter.".data,
    "Quick! You\x27re making a time capsule to open in 5 years. What 3 things are you putting in and what message for future you?".data⟩]

/-- `random.choice(self.themes)` with an injected random index. -/
def theme_at (i : Fin 8) : List Char := themes.get (Fin.cast (by decide) i)

/-- `random.choice(fallbacks)` with an injected random index. -/
def fallback_at (i : Fin 6) : EngagementMessage := fallbacks.get (Fin.cast (by decide) i)

/-- `generate_engagement_message` (lines 50-157): pick a theme (injected
index; only used in the prompt), make exactly one external call inside the
`try` block, unwrap code fences, `json.loads` the content, and on success
return the two fields with `dict.get(field, "")`; any exception (transport
error or `JSONDecodeError`) reaches the `except` clause, which returns
`random.choice(fallbacks)` (injected index) without another external call.
The second component counts external API invocations.

`parse_stage` is the parse step (lines 125-149) plus the `except` clause it
raises into: `json.loads` on the unwrapped content, then field extraction
with `parsed.get(field, "")`; a `JSONDecodeError` propagates to the
`except` clause, yielding the fallback. -/
def parse_stage (jparse : List Char → Option PyDict) (text : List Char)
    (fallback_idx : Fin 6) : EngagementMessage × Nat :=
  match jparse (fence_unwrap text) with
  | none => (fallback_at fallback_idx, 1)
  | some parsed =>
    ({ mentor_reminder := dict_get parsed mentor_reminder_key [],
       mentee_template := dict_get parsed mentee_template_key [] }, 1)

def generate_engagement_message (api : Nat → ApiResult)
    (jparse : List Char → Option PyDict) (theme_idx : Fin 8) (fallback_idx : Fin 6) :
    EngagementMessage × Nat :=
  let _theme := theme_at theme_idx
  match api 0 with
  | ApiResult.error => (fallback_at fallback_idx, 1)
  | ApiResult.content text => parse_stage jparse text fallback_idx

/-- The generation-plus-parse attempt of one run failed: either the external
call raised, or the content did not decode as JSON. -/
def attempt_failed (api : Nat → ApiResult) (jparse : List Char → Option PyDict) : Prop :=
  api 0 = ApiResult.error ∨
    ∃ t, api 0 = ApiResult.content t ∧ jparse (fence_unwrap t) = none

/-! ## Session store (`src/main.py` `start_test`, lines 50-93)

The repository files defining `UserSession` and `Question` (`models.py`,
`personality.py`) are not under `src/`; they are modelled from the spec.
The session dictionary `sessions: dict[int, UserSession]` is modelled as a
total function `Nat → Option UserSession`.
-/

/-- Modelled from the spec: a catalog `Question` is immutable data with a
`text` and an ordered sequence of options, each an option text together
with its trait-weights (dimension ↦ numeric score). -/
structure Question where
  text : List Char
  options : List (List Char × List (List Char × Int))
deriving DecidableEq

/-- Modelled from the spec: the mutable per-user session; `start_test`
constructs it with `UserSession(is_dummy=is_dummy, questions=questions)`,
with the current index starting at 0 and the accumulated trait scores
starting all-zero (an empty score map). -/
structure UserSession where
  is_dummy : Bool
  questions : List Question
  current_index : Nat
  scores : List (List Char × Int)
deriving DecidableEq

/-- The session constructed at line 75. -/
def new_session (d : Bool) (qs : List Question) : UserSession :=
  { is_dummy := d, questions := qs, current_index := 0, scores := [] }

/-- Which path `start_test` took: the early-return rejection of line 64-67,
or a successful creation. -/
inductive StartResult
  | alreadyActive
  | started (s : UserSession)
deriving DecidableEq

/-- Pointwise dictionary insertion `sessions[user_id] = session`. -/
def store_insert (m : Nat → Option UserSession) (k : Nat) (v : UserSession) :
    Nat → Option UserSession :=
  fun x => if x = k then some v else m x

/-- `start_test` (lines 50-93) restricted to its effect on the session map:
if `user_id in sessions` (line 64) reject without mutating the map;
otherwise select the question list, construct the session and insert it
(lines 69-76).  The initial-question send happens after the insert. -/
def start_test (sessions : Nat → Option UserSession) (user_id : Nat) (is_dummy : Bool)
    (all_questions dummy_questions : List Question) :
    StartResult × (Nat → Option UserSession) :=
  if (sessions user_id).isSome then (StartResult.alreadyActive, sessions)
  else
    let questions := if is_dummy then dummy_questions else all_questions
    let session := new_session is_dummy questions
    (StartResult.started session, store_insert sessions user_id session)

/-- The observable actions of one `start_test` invocation, in program order:
the membership test (line 64), the dictionary insert (line 76), and an
awaited `channel.send` (line 66 in the reject branch, line 89 after a
successful insert) — the only suspension points of the handler. -/
inductive TAct
  | membershipCheck
  | insertSession
  | awaitSend
deriving DecidableEq

/-- The action trace of `start_test`, by branch: the reject branch checks
then awaits the warning send; the success branch checks, inserts, and only
then awaits the question send. -/
def start_test_trace (sessions : Nat → Option UserSession) (user_id : Nat) : List TAct :=
  if (sessions user_id).isSome then [TAct.membershipCheck, TAct.awaitSend]
  else [TAct.membershipCheck, TAct.insertSession, TAct.awaitSend]

/-- No suspension point occurs strictly between a membership check and a
later session insert in the trace. -/
def no_suspension_between (t : List TAct) : Prop :=
  ∀ i j k : Fin t.length, t.get i = TAct.membershipCheck → t.get j = TAct.insertSession →
    i < k → k < j → t.get k ≠ TAct.awaitSend

/-! Cooperative-interleaving model for two concurrent `start_test` handlers
for the same owner: each handler runs atomically up to its first suspension
point (which, per the trace above, is after the check-and-insert), then
suspends on the send, then finishes.  A schedule is a list of booleans
choosing which handler steps next. -/

/-- Phase of one handler: not yet run, suspended on the awaited send, or
finished; `ok` records whether its membership check passed (i.e. it
created the session). -/
inductive HPhase
  | ready
  | sending (ok : Bool)
  | finished (ok : Bool)
deriving DecidableEq

/-- One cooperative step of a handler: from `ready`, run `start_test` up to
its first suspension point (the whole check-and-insert block is inside one
step because the trace has no `awaitSend` inside it); from `sending`, the
awaited send completes; a finished handler stutters. -/
def hstep (uid : Nat) (d : Bool) (aq dq : List Question)
    (m : Nat → Option UserSession) (ph : HPhase) : (Nat → Option UserSession) × HPhase :=
  match ph with
  | HPhase.ready =>
    match start_test m uid d aq dq with
    | (StartResult.alreadyActive, m2) => (m2, HPhase.sending false)
    | (StartResult.started _, m2) => (m2, HPhase.sending true)
  | HPhase.sending ok => (m, HPhase.finished ok)
  | HPhase.finished ok => (m, HPhase.finished ok)

/-- Shared state: the session map and the two handlers. -/
structure TwoStartState where
  sessions : Nat → Option UserSession
  h1 : HPhase
  h2 : HPhase

/-- Run a schedule: `true` steps handler 1, `false` steps handler 2. -/
def run2 (uid : Nat) (d : Bool) (aq dq : List Question) :
    TwoStartState → List Bool → TwoStartState
  | st, [] => st
  | st, c :: cs =>
    if c then
      let p := hstep uid d aq dq st.sessions st.h1
      run2 uid d aq dq ⟨p.1, p.2, st.h2⟩ cs
    else
      let p := hstep uid d aq dq st.sessions st.h2
      run2 uid d aq dq ⟨p.1, st.h1, p.2⟩ cs

/-- A handler has (so far) succeeded in creating the session. -/
def succeeded : HPhase → Bool
  | HPhase.sending true => true
  | HPhase.finished true => true
  | _ => false

/-- 1 when the handler has succeeded. -/
def succ01 (ph : HPhase) : Nat := if succeeded ph then 1 else 0

/-- 1 when the owner has an entry in the session map. -/
def occ01 (m : Nat → Option UserSession) (uid : Nat) : Nat :=
  if (m uid).isSome then 1 else 0

/-- Invariant tying the map occupancy to the handlers' successes. -/
def inv2 (uid : Nat) (st : TwoStartState) : Prop :=
  occ01 st.sessions uid = succ01 st.h1 + succ01 st.h2

/-! ## Supporting lemmas -/

theorem head_dropWhile_false (p : Char → Bool) (l : List Char) :
    ∀ c, (l.dropWhile p).head? = some c → p c = false := by
  induction l with
  | nil => intro c h; simp [List.dropWhile] at h
  | cons a t ih =>
    intro c h
    by_cases hp : p a
    · rw [List.dropWhile_cons_of_pos hp] at h
      exact ih c h
    · rw [List.dropWhile_cons_of_neg hp] at h
      simp only [List.head?_cons, Option.some.injEq] at h
      rw [← h]
      exact Bool.eq_false_iff.mpr hp

theorem dropWhile_eq_self_of_head (p : Char → Bool) (l : List Char)
    (h : ∀ c, l.head? = some c → p c = false) : l.dropWhile p = l := by
  cases l with
  | nil => rfl
  | cons a t =>
    have ha := h a rfl
    rw [List.dropWhile_cons_of_neg (by simp [ha])]

theorem getLast_dropWhile (p : Char → Bool) (l : List Char) :
    ∀ c, (l.dropWhile p).getLast? = some c → l.getLast? = some c := by
  induction l with
  | nil => intro c h; simp [List.dropWhile] at h
  | cons a t ih =>
    intro c h
    by_cases hp : p a
    · rw [List.dropWhile_cons_of_pos hp] at h
      have ht := ih c h
      cases t with
      | nil => simp at ht
      | cons b u => rw [List.getLast?_cons_cons]; exact ht
    · rw [List.dropWhile_cons_of_neg hp] at h
      exact h

theorem pyStrip_idem (s : List Char) : pyStrip (pyStrip s) = pyStrip s := by
  unfold pyStrip
  have h1 : (((s.dropWhile isPySpace).reverse.dropWhile isPySpace).reverse).dropWhile
      isPySpace = ((s.dropWhile isPySpace).reverse.dropWhile isPySpace).reverse := by
    apply dropWhile_eq_self_of_head
    intro c hc
    rw [List.head?_reverse] at hc
    have h2 := getLast_dropWhile isPySpace (s.dropWhile isPySpace).reverse c hc
    rw [List.getLast?_reverse] at h2
    exact head_dropWhile_false isPySpace s c h2
  rw [h1, List.reverse_reverse]
  have h3 : ((s.dropWhile isPySpace).reverse.dropWhile isPySpace).dropWhile isPySpace =
      (s.dropWhile isPySpace).reverse.dropWhile isPySpace := by
    apply dropWhile_eq_self_of_head
    intro c hc
    exact head_dropWhile_false isPySpace (s.dropWhile isPySpace).reverse c hc
  rw [h3]

theorem extract_loop_eval_success (oracle : Nat → AttemptResult) (a r : Nat)
    (t : List Char) (h : oracle a = AttemptResult.success t) :
    extract_loop oracle a r =
      (if pyUpper (pyStrip t) = sentinel ∨ pyStrip t = [] then none else some (pyStrip t), 1) := by
  rw [extract_loop.eq_def, h]
  cases r <;> rfl

theorem extract_loop_eval_failure (oracle : Nat → AttemptResult) (a r : Nat)
    (h : oracle a = AttemptResult.failure) :
    extract_loop oracle a (r + 1) =
      ((extract_loop oracle (a + 1) r).1, (extract_loop oracle (a + 1) r).2 + 1) := by
  conv_lhs => rw [extract_loop.eq_def]
  rw [h]

theorem extract_loop_eval_failure_last (oracle : Nat → AttemptResult) (a : Nat)
    (h : oracle a = AttemptResult.failure) :
    extract_loop oracle a 0 = (none, 1) := by
  rw [extract_loop.eq_def, h]

theorem extract_prayer_run (msg : List Char) (oracle : Nat → AttemptResult)
    (h : pyStrip msg ≠ []) :
    extract_prayer true msg oracle = extract_loop oracle 0 1 := by
  have hm : ¬(msg = [] ∨ pyStrip msg = []) := by
    rintro (rfl | h2)
    · exact h rfl
    · exact h h2
  unfold extract_prayer
  rw [if_neg (by simp), if_neg hm]

theorem extract_loop_some (oracle : Nat → AttemptResult) (r : Nat) :
    ∀ (a : Nat) (s : List Char), (extract_loop oracle a r).1 = some s →
      s ≠ [] ∧ pyStrip s = s ∧ pyUpper s ≠ sentinel := by
  induction r with
  | zero =>
    intro a s h
    cases ho : oracle a with
    | success t =>
      rw [extract_loop_eval_success oracle a 0 t ho] at h
      by_cases hc : pyUpper (pyStrip t) = sentinel ∨ pyStrip t = []
      · simp [hc] at h
      · simp only [if_neg hc, Option.some.injEq] at h
        push_neg at hc
        rw [← h]
        exact ⟨hc.2, pyStrip_idem t, hc.1⟩
    | failure =>
      rw [extract_loop_eval_failure_last oracle a ho] at h
      simp at h
  | succ r ih =>
    intro a s h
    cases ho : oracle a with
    | success t =>
      rw [extract_loop_eval_success oracle a (r + 1) t ho] at h
      by_cases hc : pyUpper (pyStrip t) = sentinel ∨ pyStrip t = []
      · simp [hc] at h
      · simp only [if_neg hc, Option.some.injEq] at h
        push_neg at hc
        rw [← h]
        exact ⟨hc.2, pyStrip_idem t, hc.1⟩
    | failure =>
      rw [extract_loop_eval_failure oracle a r ho] at h
      exact ih (a + 1) s h

theorem hstep_occ (uid : Nat) (d : Bool) (aq dq : List Question)
    (m : Nat → Option UserSession) (ph : HPhase) :
    occ01 (hstep uid d aq dq m ph).1 uid + succ01 ph =
      occ01 m uid + succ01 (hstep uid d aq dq m ph).2 := by
  cases ph with
  | ready =>
    by_cases hx : (m uid).isSome
    · simp [hstep, start_test, hx, occ01, succ01, succeeded]
    · simp [hstep, start_test, hx, occ01, succ01, succeeded, store_insert]
  | sending ok => cases ok <;> simp [hstep, occ01, succ01, succeeded]
  | finished ok => cases ok <;> simp [hstep, occ01, succ01, succeeded]

theorem run2_inv (uid : Nat) (d : Bool) (aq dq : List Question) (cs : List Bool) :
    ∀ st : TwoStartState, inv2 uid st → inv2 uid (run2 uid d aq dq st cs) := by
  induction cs with
  | nil => intro st h; exact h
  | cons c cs ih =>
    intro st h
    cases c with
    | true =>
      simp only [run2, if_pos rfl]
      apply ih
      have hs := hstep_occ uid d aq dq st.sessions st.h1
      unfold inv2 at h ⊢
      dsimp only at h ⊢
      omega
    | false =>
      simp only [run2]
      rw [if_neg (by simp)]
      apply ih
      have hs := hstep_occ uid d aq dq st.sessions st.h2
      unfold inv2 at h ⊢
      dsimp only at h ⊢
      omega

/-! ## Claim theorems -/

/-- Claim C9 (confirmed): for every input text, when the external generation
client is uninitialized, `extract_prayer` returns `None` immediately,
making zero external calls (hence no retries and no error). -/
theorem extract_prayer_client_uninitialized (msg : List Char)
    (oracle : Nat → AttemptResult) :
    extract_prayer false msg oracle = (none, 0) := rfl

/-- Claim C7 (confirmed): for every empty or whitespace-only input text,
`extract_prayer` returns the no-content result `None` and makes zero calls
to the external generation service. -/
theorem extract_prayer_empty_input (client_initialized : Bool) (msg : List Char)
    (oracle : Nat → AttemptResult) (h : msg = [] ∨ pyStrip msg = []) :
    extract_prayer client_initialized msg oracle = (none, 0) := by
  cases client_initialized with
  | false => rfl
  | true =>
    unfold extract_prayer
    rw [if_neg (by simp), if_pos h]

/-- Witness for C7 at a whitespace-only input. -/
theorem extract_prayer_empty_input_witness :
    extract_prayer true "   ".data (fun _ => AttemptResult.success "x".data) = (none, 0) :=
  extract_prayer_empty_input true "   ".data (fun _ => AttemptResult.success "x".data)
    (Or.inr (by decide))

/-- Claim C3 (confirmed): for every non-empty input, the pipeline invokes
the external task at most 2 times; a first-call success is returned after
exactly 1 invocation; and when both attempts fail it returns the failed
outcome `None` after exactly 2 invocations, in which case the caller
(`handle_prayer_message`) persists no prayer record. -/
theorem extract_prayer_retry_bound (msg : List Char) (oracle : Nat → AttemptResult)
    (h : pyStrip msg ≠ []) :
    (extract_prayer true msg oracle).2 ≤ 2 ∧
    (is_api_failure (oracle 0) = false → (extract_prayer true msg oracle).2 = 1) ∧
    (oracle 0 = AttemptResult.failure → oracle 1 = AttemptResult.failure →
      extract_prayer true msg oracle = (none, 2) ∧
      handle_prayer_message true msg oracle = none) := by
  have key := extract_prayer_run msg oracle h
  refine ⟨?_, ?_, ?_⟩
  · rw [key]
    cases h0 : oracle 0 with
    | success t => rw [extract_loop_eval_success oracle 0 1 t h0]; simp
    | failure =>
      rw [extract_loop_eval_failure oracle 0 0 h0]
      cases h1 : oracle 1 with
      | success t => rw [extract_loop_eval_success oracle 1 0 t h1]
      | failure => rw [extract_loop_eval_failure_last oracle 1 h1]
  · intro hf
    rw [key]
    cases h0 : oracle 0 with
    | success t => rw [extract_loop_eval_success oracle 0 1 t h0]
    | failure => rw [h0] at hf; simp [is_api_failure] at hf
  · intro h0 h1
    have hv : extract_loop oracle 0 1 = (none, 2) := by
      rw [extract_loop_eval_failure oracle 0 0 h0, extract_loop_eval_failure_last oracle 1 h1]
    refine ⟨by rw [key, hv], ?_⟩
    unfold handle_prayer_message
    rw [key, hv]

/-- Witness for C3 with a permanently failing service. -/
theorem extract_prayer_retry_bound_witness :
    extract_prayer true "please pray for my family".data (fun _ => AttemptResult.failure) =
      (none, 2) ∧
    handle_prayer_message true "please pray for my family".data
      (fun _ => AttemptResult.failure) = none :=
  (extract_prayer_retry_bound "please pray for my family".data
    (fun _ => AttemptResult.failure) (by decide)).2.2 rfl rfl

/-- Claim C6 (confirmed): for every non-empty input on which the external
call succeeds, the result is `None` (no content) exactly when the trimmed
response is empty or uppercases to the sentinel `NO_PRAYER` (the code's
case-insensitive comparison); every other trimmed response is returned as
the extracted sentence. -/
theorem extract_prayer_success_classification (msg r : List Char)
    (oracle : Nat → AttemptResult) (h : pyStrip msg ≠ [])
    (h0 : oracle 0 = AttemptResult.success r) :
    extract_prayer true msg oracle =
      (if pyUpper (pyStrip r) = sentinel ∨ pyStrip r = [] then none
       else some (pyStrip r), 1) := by
  rw [extract_prayer_run msg oracle h, extract_loop_eval_success oracle 0 1 r h0]

/-- Witness for C6 with a mixed-case sentinel response. -/
theorem extract_prayer_success_classification_witness :
    extract_prayer true "anyone there".data
      (fun _ => AttemptResult.success "  no_prayer  ".data) = (none, 1) := by
  have h := extract_prayer_success_classification "anyone there".data "  no_prayer  ".data
    (fun _ => AttemptResult.success "  no_prayer  ".data) (by decide) rfl
  rw [h]
  decide

/-- Claim C10 (confirmed): every non-`None` value returned by
`extract_prayer` is a non-empty string, unchanged by stripping (so it has
no leading or trailing whitespace), and does not uppercase to the sentinel
`NO_PRAYER` (i.e. is not case-insensitively equal to it). -/
theorem extract_prayer_some_invariant (client_initialized : Bool) (msg : List Char)
    (oracle : Nat → AttemptResult) (s : List Char)
    (h : (extract_prayer client_initialized msg oracle).1 = some s) :
    s ≠ [] ∧ pyStrip s = s ∧ pyUpper s ≠ sentinel := by
  cases client_initialized with
  | false => simp [extract_prayer] at h
  | true =>
    by_cases hm : msg = [] ∨ pyStrip msg = []
    · rw [extract_prayer_empty_input true msg oracle hm] at h
      simp at h
    · have key : extract_prayer true msg oracle = extract_loop oracle 0 1 := by
        unfold extract_prayer
        rw [if_neg (by simp), if_neg hm]
      rw [key] at h
      exact extract_loop_some oracle 1 0 s h

/-- Witness for C10 on a response with surrounding whitespace. -/
theorem extract_prayer_some_invariant_witness :
    "pray for healing".data ≠ ([] : List Char) ∧
    pyStrip "pray for healing".data = "pray for healing".data ∧
    pyUpper "pray for healing".data ≠ sentinel := by
  apply extract_prayer_some_invariant true "hello".data
    (fun _ => AttemptResult.success "  pray for healing  ".data)
  rw [extract_prayer_run "hello".data _ (by decide),
    extract_loop_eval_success _ 0 1 "  pray for healing  ".data rfl]
  decide

/-- Claim C1 (counterexample): a payload that JSON-parses but is missing the
audience-facing field is NOT treated as a parse failure: the pipeline
returns it as a success with an empty `mentee_template`, and the returned
pair is not from the fallback pool. -/
theorem engagement_missing_field_returned_as_success :
    (generate_engagement_message (fun _ => ApiResult.content "payload".data)
      (fun c => if c = "payload".data then some [(mentor_reminder_key, "hi".data)] else none)
      0 0).1.mentee_template = [] ∧
    (generate_engagement_message (fun _ => ApiResult.content "payload".data)
      (fun c => if c = "payload".data then some [(mentor_reminder_key, "hi".data)] else none)
      0 0).1 ∉ fallbacks := by
  constructor
  · decide
  · decide

/-- Claim C1 (amended): the parse stage performs no field validation:
whenever the payload JSON-parses, the run returns success after one call,
with each of the two fields read by `parsed.get(field, "")` — an empty
string when the field is missing. -/
theorem engagement_parse_no_field_validation (api : Nat → ApiResult)
    (jparse : List Char → Option PyDict) (ti : Fin 8) (fi : Fin 6) (t : List Char)
    (d : PyDict) (ha : api 0 = ApiResult.content t)
    (hp : jparse (fence_unwrap t) = some d) :
    generate_engagement_message api jparse ti fi =
      ({ mentor_reminder := dict_get d mentor_reminder_key [],
         mentee_template := dict_get d mentee_template_key [] }, 1) := by
  simp only [generate_engagement_message, parse_stage, ha, hp]

/-- Witness for the amended C1. -/
theorem engagement_parse_no_field_validation_witness :
    generate_engagement_message (fun _ => ApiResult.content "payload".data)
      (fun c => if c = "payload".data then some [(mentor_reminder_key, "hi".data)] else none)
      0 0 =
      ({ mentor_reminder := "hi".data, mentee_template := [] }, 1) := by
  have h := engagement_parse_no_field_validation (fun _ => ApiResult.content "payload".data)
    (fun c => if c = "payload".data then some [(mentor_reminder_key, "hi".data)] else none)
    0 0 "payload".data [(mentor_reminder_key, "hi".data)] rfl (by decide)
  rw [h]
  decide

/-- Claim C2 (counterexample): a run whose first external attempt fails and
whose second attempt would succeed with a well-formed payload does NOT
yield that success after a second call: the pipeline makes exactly one
invocation and returns the fallback instead. -/
theorem engagement_no_retry_counterexample :
    generate_engagement_message
        (fun n => if n = 0 then ApiResult.error else ApiResult.content "payload".data)
        (fun c => if c = "payload".data then
          some [(mentor_reminder_key, "a".data), (mentee_template_key, "b".data)] else none)
        0 0 =
      (fallback_at 0, 1) ∧
    fallback_at 0 ≠ { mentor_reminder := "a".data, mentee_template := "b".data } := by
  constructor
  · rfl
  · decide

/-- Claim C2 (amended): every invocation of the engagement generator makes
exactly one generation attempt — there is no retry — and a failed first
attempt goes directly to the fallback pool. -/
theorem engagement_single_attempt (api : Nat → ApiResult)
    (jparse : List Char → Option PyDict) (ti : Fin 8) (fi : Fin 6) :
    (generate_engagement_message api jparse ti fi).2 = 1 ∧
    (api 0 = ApiResult.error →
      (generate_engagement_message api jparse ti fi).1 = fallback_at fi) := by
  constructor
  · cases ha : api 0 with
    | error => simp only [generate_engagement_message, ha]
    | content text =>
      cases hp : jparse (fence_unwrap text) with
      | none => simp only [generate_engagement_message, parse_stage, ha, hp]
      | some d => simp only [generate_engagement_message, parse_stage, ha, hp]
  · intro ha
    simp only [generate_engagement_message, ha]

/-- Witness for the amended C2. -/
theorem engagement_single_attempt_witness :
    (generate_engagement_message (fun _ => ApiResult.error) (fun _ => none) 0 0).2 = 1 ∧
    (generate_engagement_message (fun _ => ApiResult.error) (fun _ => none) 0 0).1 =
      fallback_at 0 :=
  ⟨(engagement_single_attempt (fun _ => ApiResult.error) (fun _ => none) 0 0).1,
   (engagement_single_attempt (fun _ => ApiResult.error) (fun _ => none) 0 0).2 rfl⟩

/-- Claim C4 (confirmed): whenever the external generation or its parsing
fails (including a service that always returns malformed payloads), the
generator returns — never raises, since every embedded path is total and
the source catches all exceptions — a pair from the fixed fallback pool,
and makes no further call to the external service (exactly 1 call total). -/
theorem engagement_failure_falls_back (api : Nat → ApiResult)
    (jparse : List Char → Option PyDict) (ti : Fin 8) (fi : Fin 6)
    (h : attempt_failed api jparse) :
    generate_engagement_message api jparse ti fi = (fallback_at fi, 1) ∧
    fallback_at fi ∈ fallbacks := by
  constructor
  · rcases h with ha | ⟨t, ha, hp⟩
    · simp only [generate_engagement_message, ha]
    · simp only [generate_engagement_message, parse_stage, ha, hp]
  · unfold fallback_at
    exact List.get_mem fallbacks _ _

/-- Witness for C4 with a service that always returns malformed payloads. -/
theorem engagement_failure_falls_back_witness :
    generate_engagement_message (fun _ => ApiResult.content "oops".data) (fun _ => none) 0 0 =
      (fallback_at 0, 1) ∧ fallback_at 0 ∈ fallbacks :=
  engagement_failure_falls_back (fun _ => ApiResult.content "oops".data) (fun _ => none) 0 0
    (Or.inr ⟨"oops".data, rfl, rfl⟩)

/-- Claim C5 (confirmed): starting from a state where the owner has no
session, two successive `start_test` calls for the same owner yield exactly
one successful creation and one `AlreadyActive` rejection, and the
rejecting call leaves the session map unchanged. -/
theorem start_test_twice_one_success (sessions : Nat → Option UserSession) (uid : Nat)
    (d1 d2 : Bool) (aq dq : List Question) (h : sessions uid = none) :
    (start_test sessions uid d1 aq dq).1 =
      StartResult.started (new_session d1 (if d1 then dq else aq)) ∧
    (start_test (start_test sessions uid d1 aq dq).2 uid d2 aq dq).1 =
      StartResult.alreadyActive ∧
    (start_test (start_test sessions uid d1 aq dq).2 uid d2 aq dq).2 =
      (start_test sessions uid d1 aq dq).2 := by
  simp [start_test, store_insert, h]

/-- Witness for C5 from the empty session map. -/
theorem start_test_twice_one_success_witness :
    (start_test (fun _ => none) 7 true [] []).1 =
      StartResult.started (new_session true (if true then [] else [])) ∧
    (start_test (start_test (fun _ => none) 7 true [] []).2 7 false [] []).1 =
      StartResult.alreadyActive ∧
    (start_test (start_test (fun _ => none) 7 true [] []).2 7 false [] []).2 =
      (start_test (fun _ => none) 7 true [] []).2 :=
  start_test_twice_one_success (fun _ => none) 7 true false [] [] rfl

/-- Claim C8 (confirmed): (1) in every `start_test` trace no suspension
point (awaited send) occurs strictly between the membership test and the
session insert; and (2) in the cooperative-interleaving model built on that
atomic block, two interleaved start-requests for the same owner never both
pass the membership check, under every schedule. -/
theorem start_test_check_insert_atomic :
    (∀ (sessions : Nat → Option UserSession) (uid : Nat),
      no_suspension_between (start_test_trace sessions uid)) ∧
    (∀ (uid : Nat) (d : Bool) (aq dq : List Question) (cs : List Bool),
      ¬(succeeded (run2 uid d aq dq ⟨fun _ => none, HPhase.ready, HPhase.ready⟩ cs).h1 = true ∧
        succeeded (run2 uid d aq dq ⟨fun _ => none, HPhase.ready, HPhase.ready⟩ cs).h2 = true)) := by
  constructor
  · intro sessions uid
    unfold start_test_trace no_suspension_between
    by_cases hx : (sessions uid).isSome
    · rw [if_pos hx]; decide
    · rw [if_neg hx]; decide
  · intro uid d aq dq cs hc
    have h0 : inv2 uid ⟨fun _ => none, HPhase.ready, HPhase.ready⟩ := by
      simp [inv2, occ01, succ01, succeeded]
    have hf := run2_inv uid d aq dq cs _ h0
    unfold inv2 succ01 at hf
    rw [hc.1, hc.2] at hf
    unfold occ01 at hf
    split at hf <;> simp at hf

/-- Witness for C8 at a concrete schedule. -/
theorem start_test_check_insert_atomic_witness :
    no_suspension_between (start_test_trace (fun _ => none) 3) ∧
    ¬(succeeded (run2 3 true [] [] ⟨fun _ => none, HPhase.ready, HPhase.ready⟩
        [true, false, true, false]).h1 = true ∧
      succeeded (run2 3 true [] [] ⟨fun _ => none, HPhase.ready, HPhase.ready⟩
        [true, false, true, false]).h2 = true) :=
  ⟨start_test_check_insert_atomic.1 (fun _ => none) 3,
   start_test_check_insert_atomic.2 3 true [] [] [true, false, true, false]⟩

end FiT
